import Mathlib

/-
Verification of the eog-parser HTTP façade (src/start.js, src/server.js).

The JavaScript source is shallowly embedded: each function the claims
depend on is translated into an executable Lean definition over explicit
state (the rate-limit map, the WebSocket message buffer, the captured
temporary-file contents), and the claims are settled as theorems about
those definitions.  Times are milliseconds as natural numbers, matching
Date.now(); JS strings are Lean Strings with char-list helpers mirroring
the JS operations used by the source (includes, endsWith, trim, parseInt).
-/

namespace EogParser

/-! ### JS string helpers -/

/-- JS `hay.includes(needle)` on char lists: does `needle` occur as a
contiguous substring of `hay`? -/
def jsIncludesL (hay needle : List Char) : Bool :=
  match hay with
  | [] => needle.isEmpty
  | _ :: t => needle.isPrefixOf hay || jsIncludesL t needle

/-- JS `s.includes(sub)`. -/
def jsIncludes (s sub : String) : Bool := jsIncludesL s.toList sub.toList

/-- JS `s.endsWith(suffix)`. -/
def jsEndsWith (s suffix₀ : String) : Bool := suffix₀.toList.isSuffixOf s.toList

/-- JS `s.trim()` on char lists: strip leading and trailing whitespace. -/
def jsTrimL (cs : List Char) : List Char :=
  ((cs.dropWhile Char.isWhitespace).reverse.dropWhile Char.isWhitespace).reverse

/-- JS `s.trim()`. -/
def jsTrim (s : String) : String := String.mk (jsTrimL s.toList)

/-! ### Rate limiter (start.js lines 131-151, server.js lines 18-39)

`checkRateLimit(ip)` keeps one `{count, resetAt}` record per client in an
in-memory Map.  We embed the Map as a function from identity strings to
optional records and `Date.now()` as an explicit `now` argument. -/

/-- Source constant `RATE_LIMIT = 100` (requests per window). -/
def RATE_LIMIT : Nat := 100

/-- Source constant `RATE_WINDOW = 60 * 60 * 1000` (one hour in ms). -/
def RATE_WINDOW : Nat := 60 * 60 * 1000

/-- One per-identity record of the `rateLimits` Map: `{count, resetAt}`. -/
structure RateRecord where
  count : Nat
  resetAt : Nat
deriving Repr, DecidableEq

/-- The `rateLimits` Map: identity string to optional record. -/
def RateMap := String → Option RateRecord

/-- Embedding of `checkRateLimit(ip)` at time `now`.  Mirrors the source:
fetch the record (defaulting to `{count: 0, resetAt: now + RATE_WINDOW}`),
reset it if `now > record.resetAt`, reject without incrementing if
`record.count >= RATE_LIMIT`, otherwise increment, store and accept.
Returns the updated Map and the boolean verdict. -/
def checkRateLimit (m : RateMap) (ip : String) (now : Nat) : RateMap × Bool :=
  let record := (m ip).getD ⟨0, now + RATE_WINDOW⟩
  let record := if record.resetAt < now then (⟨0, now + RATE_WINDOW⟩ : RateRecord) else record
  if RATE_LIMIT ≤ record.count then
    (m, false)
  else
    (fun k => if k = ip then some ⟨record.count + 1, record.resetAt⟩ else m k, true)

/-- Run a sequence of `checkRateLimit` calls for one identity at the given
times, collecting the verdicts. -/
def runRateTimes (m : RateMap) (ip : String) : List Nat → RateMap × List Bool
  | [] => (m, [])
  | t :: ts =>
    let step := checkRateLimit m ip t
    let rest := runRateTimes step.1 ip ts
    (rest.1, step.2 :: rest.2)

/-- Run a sequence of `checkRateLimit` calls for arbitrary identities,
keeping only the final Map. -/
def runRate (m : RateMap) : List (String × Nat) → RateMap
  | [] => m
  | (ip, t) :: cs => runRate (checkRateLimit m ip t).1 cs

/-! ### API-key validation and the /api/parse gate middleware
(start.js lines 175-183 and 496-504) -/

/-- Embedding of `validateApiKey`: the request passes unless a non-empty
`API_KEY` is configured and the `x-api-key` header differs from it
(a missing header, embedded as `none`, never equals a configured key). -/
def validateApiKeyPasses (requiredKey : String) (provided : Option String) : Bool :=
  if requiredKey ≠ "" ∧ provided ≠ some requiredKey then false else true

/-- Outcome of the middleware chain in front of the /api/parse handler. -/
inductive ParseGateResult where
  | unauthorized
  | rateLimited
  | proceed
deriving Repr, DecidableEq

/-- Embedding of the /api/parse middleware chain: `validateApiKey` runs
first and responds 401 without touching the rate limiter; only then does
the rate-limit middleware call `checkRateLimit` and either respond 429 or
pass the request on. Returns the rate-limit Map after the request. -/
def parseGate (m : RateMap) (requiredKey : String) (provided : Option String)
    (ip : String) (now : Nat) : RateMap × ParseGateResult :=
  if validateApiKeyPasses requiredKey provided = false then
    (m, .unauthorized)
  else
    let step := checkRateLimit m ip now
    if step.2 then (step.1, .proceed) else (step.1, .rateLimited)

/-! ### Upload handler (start.js lines 153-172, server.js lines 41-60) -/

/-- Embedding of the multer `fileFilter` callback: accept exactly the
mimetype `application/pdf`, otherwise fail with the source's error. -/
def fileFilter (mimetype : String) : Except String Unit :=
  if mimetype = "application/pdf" then Except.ok ()
  else Except.error "Only PDF files allowed"

/-- Modelled from the spec: the multer upload pipeline itself is library
code external to the repository; per the spec, the configured `fileFilter`
runs before the storage engine persists anything, so a rejected file is
never written.  `disk` is the list of persisted names in the upload
directory; on acceptance the generated name is persisted. -/
def uploadPipeline (disk : List String) (mimetype : String) (generatedName : String) :
    List String × Except String String :=
  match fileFilter mimetype with
  | Except.error e => (disk, Except.error e)
  | Except.ok _ => (generatedName :: disk, Except.ok generatedName)

/-! ### Download endpoint (start.js lines 563-584, server.js lines 128-145) -/

/-- Response of GET /api/download/:filename. -/
inductive DownloadResp where
  | invalid
  | notFound
  | fileStream (name : String)
deriving Repr, DecidableEq

/-- Embedding of the download endpoint: a pure string-level guard
(`!filename.endsWith('.csv') || filename.includes('..')` responds 400)
runs before the existence check; `fileExists` embeds
`fs.existsSync(path.join(OUTPUT_DIR, filename))`. -/
def downloadEndpoint (filename : String) (fileExists : Bool) : DownloadResp :=
  if !(jsEndsWith filename ".csv") || jsIncludes filename ".." then
    DownloadResp.invalid
  else if !fileExists then
    DownloadResp.notFound
  else
    DownloadResp.fileStream filename

/-! ### Strategy B: processWithCLI close handler (start.js lines 378-470)

The subprocess writes stdout, stderr and `echo $?` each to a temp file.
On the `close` event the handler reads the three files (a missing file
leaves the JS default: empty string, and exit code 1) and decides the
promise.  The exit code is computed as `parseInt(content.trim()) || 1`. -/

/-- Accumulate the value of a maximal decimal-digit prefix, JS-parseInt
style: stop at the first non-digit. -/
def digitsVal (acc : Nat) : List Char → Nat
  | [] => acc
  | c :: cs => if c.isDigit then digitsVal (acc * 10 + (c.toNat - 48)) cs else acc

/-- Maximal decimal-digit prefix of a char list; `none` (JS NaN) when the
list does not start with a digit. -/
def digitsNum : List Char → Option Nat
  | [] => none
  | c :: cs => if c.isDigit then some (digitsVal (c.toNat - 48) cs) else none

/-- JS `parseInt(s)` restricted to the decimal forms the exit-status file
can hold (optional sign, then digits; `none` embeds NaN).  `parseInt` also
skips leading whitespace, which the caller's `.trim()` already removed. -/
def jsParseInt (s : String) : Option Int :=
  match s.toList with
  | '-' :: rest => (digitsNum rest).map (fun n => -(n : Int))
  | '+' :: rest => (digitsNum rest).map (fun n => (n : Int))
  | cs => (digitsNum cs).map (fun n => (n : Int))

/-- JS `x || 1` applied to a parseInt result: NaN and 0 are falsy, so both
collapse to 1. -/
def jsOrOne : Option Int → Int
  | none => 1
  | some n => if n = 0 then 1 else n

/-- Contents of the three temporary files when the subprocess closes;
`none` embeds a file that `fs.existsSync` does not find. -/
structure CLIFiles where
  stdoutContent : Option String
  stderrContent : Option String
  exitContent : Option String
deriving Repr, DecidableEq

/-- Exit code computed by the `close` handler of `processWithCLI`:
defaults to 1 when the exit file is missing, otherwise
`parseInt(content.trim()) || 1`. -/
def cliExitCode (f : CLIFiles) : Int :=
  match f.exitContent with
  | none => 1
  | some s => jsOrOne (jsParseInt (jsTrim s))

/-- The rejection message built by the `close` handler:
`OpenClaw exited with code (exitCode): (stderr || stdout || 'No output')`. -/
def cliFailText (f : CLIFiles) : String :=
  let stdout := f.stdoutContent.getD ""
  let stderr := f.stderrContent.getD ""
  "OpenClaw exited with code " ++ toString (cliExitCode f) ++ ": " ++
    (if stderr ≠ "" then stderr else if stdout ≠ "" then stdout else "No output")

/-- Embedding of the `close` handler of `processWithCLI`: read the three
temp files (defaults: empty stdout and stderr, exit code 1), resolve with
the captured stdout when `exitCode === 0`, otherwise reject with
`cliFailText`. -/
def cliOutcome (f : CLIFiles) : Except String String :=
  if cliExitCode f = 0 then
    Except.ok (f.stdoutContent.getD "")
  else
    Except.error (cliFailText f)

/-- Embedding of the `processWithCLI` timeout handler (start.js lines
423-427): it kills the subprocess (`true`) and rejects with the timeout
message, unconditionally. -/
def cliTimeoutFire : Bool × Except String String :=
  (true, Except.error "Timeout waiting for OpenClaw response (5 minutes)")

/-! ### Strategy A: processWithGateway message handling (start.js lines 274-375)

One in-flight call holds an accumulating `fullResponse` buffer, a
`messageReceived` flag set only when a terminal tag arrives, and the
promise, embedded as `settled : Option (Except error success)` where JS
settles a promise at most once (later resolve/reject calls are no-ops). -/

/-- Incoming WebSocket events as classified by the `message` handler:
`content` covers the `content`/`text` tags (carrying
`msg.content || msg.text || ''`), `done` covers `done`/`complete`/`end`,
`errorMsg` carries `msg.error || msg.message` (empty when both are
missing), `plain` is an unparseable frame appended raw, and `other` is any
other parsed tag, which the handler ignores. -/
inductive GwMsg where
  | content (s : String)
  | done
  | errorMsg (e : String)
  | plain (s : String)
  | other
deriving Repr, DecidableEq

/-- Correlation state of one `processWithGateway` call. -/
structure GwState where
  fullResponse : String
  messageReceived : Bool
  settled : Option (Except String String)
deriving Repr

/-- Settle the promise once: later attempts are no-ops. -/
def settle (st : GwState) (r : Except String String) : GwState :=
  match st.settled with
  | none => { st with settled := some r }
  | some _ => st

/-- Initial state of a call: empty buffer, no terminal flag, pending. -/
def gwInit : GwState := ⟨"", false, none⟩

/-- Embedding of the `message` handler: content fragments and unparseable
frames append to the buffer; `done` sets the flag and resolves with the
buffer; `error` sets the flag and rejects with the carried message
(defaulting to "Gateway error" when empty); other tags are ignored. -/
def stepMsg (st : GwState) (m : GwMsg) : GwState :=
  match m with
  | GwMsg.content s => { st with fullResponse := st.fullResponse ++ s }
  | GwMsg.plain s => { st with fullResponse := st.fullResponse ++ s }
  | GwMsg.done => settle { st with messageReceived := true } (Except.ok st.fullResponse)
  | GwMsg.errorMsg e =>
    settle { st with messageReceived := true }
      (Except.error (if e = "" then "Gateway error" else e))
  | GwMsg.other => st

/-- State of the call after a sequence of incoming messages. -/
def runGw (msgs : List GwMsg) : GwState := msgs.foldl stepMsg gwInit

/-- Embedding of the `close` handler: with no terminal message seen,
resolve with the accumulated buffer when it is non-empty, otherwise
reject; with a terminal already seen, do nothing. -/
def stepClose (st : GwState) : GwState :=
  if st.messageReceived = false ∧ st.fullResponse ≠ "" then
    settle st (Except.ok st.fullResponse)
  else if st.messageReceived = false then
    settle st (Except.error "WebSocket closed without response")
  else
    st

/-- Source constant: both strategies bound the call at 300000 ms. -/
def GW_TIMEOUT_MS : Nat := 300000

/-- Embedding of the gateway timeout handler (start.js lines 311-317): it
always calls `ws.close()` (the Bool component) and rejects with
"Gateway timeout" when no terminal message was received. -/
def gwTimeoutFire (st : GwState) : GwState × Bool :=
  (if st.messageReceived = false then settle st (Except.error "Gateway timeout") else st,
   true)

/-- Terminal tags: `done`/`complete`/`end` and `error`. -/
def isTerminal : GwMsg → Bool
  | GwMsg.done => true
  | GwMsg.errorMsg _ => true
  | _ => false

/-! ### Dispatch and the /api/parse handler body (start.js lines 496-560) -/

/-- Which strategies the /api/parse handler attempted, and the final
strategy result (the value of `result`, or the error that reached the
outer catch). -/
structure DispatchOut where
  triedGateway : Bool
  triedCLI : Bool
  result : Except String String
deriving Repr

/-- Embedding of the try/catch dispatch in the /api/parse handler: when
`gatewayReady` is set, `processWithGateway` is awaited first and any
rejection is caught and replaced by an await of `processWithCLI`; when the
flag is unset, `processWithCLI` is awaited directly.  The strategy
outcomes are passed in as `Except` values (error = rejected promise). -/
def dispatch (gatewayReady : Bool) (gw cli : Except String String) : DispatchOut :=
  if gatewayReady then
    match gw with
    | Except.ok msg => ⟨true, false, Except.ok msg⟩
    | Except.error _ => ⟨true, true, cli⟩
  else
    ⟨false, true, cli⟩

/-- Response of POST /api/parse past the gate middleware. -/
inductive ParseResp where
  | noFile
  | okDownload (url : String)
  | okNoCsv (message : String)
  | failure (status : Nat) (error : String)
deriving Repr, DecidableEq

/-- Embedding of the /api/parse handler body: 400 when no file was
uploaded; otherwise dispatch to the strategies; a rejection reaching the
outer catch yields a 500 with the error message; on a resolved result the
handler checks `fs.existsSync(outputCsvPath)` (`csvExists`) and responds
with the download URL when the file exists, else with the resolved
message and a note. -/
def parseEndpoint (hasFile : Bool) (gatewayReady : Bool) (gw cli : Except String String)
    (csvExists : Bool) (baseName : String) : ParseResp :=
  if !hasFile then
    ParseResp.noFile
  else
    match (dispatch gatewayReady gw cli).result with
    | Except.error e => ParseResp.failure 500 e
    | Except.ok msg =>
      if csvExists then
        ParseResp.okDownload ("/api/download/" ++ baseName ++ "_parsed.csv")
      else
        ParseResp.okNoCsv msg

/-! ### Theorems for the guard-style claims -/

/-- C7: a requested download filename that does not end in ".csv" or that
contains ".." is rejected with 400 (`invalid`) regardless of whether a
matching file exists in the output directory. -/
theorem C7_download_guard (filename : String) (fileExists : Bool)
    (h : jsEndsWith filename ".csv" = false ∨ jsIncludes filename ".." = true) :
    downloadEndpoint filename fileExists = DownloadResp.invalid := by
  unfold downloadEndpoint
  rcases h with h | h <;> simp [h]

/-- C7 witness: "report..csv" ends in ".csv" and contains "..", and is
rejected even though a matching file exists on disk. -/
theorem C7_download_guard_witness :
    downloadEndpoint "report..csv" true = DownloadResp.invalid :=
  C7_download_guard "report..csv" true (Or.inr (by decide))

/-- C8: an upload whose declared mimetype is not "application/pdf" is
rejected with the validation error and the upload directory is unchanged:
the file is never persisted. -/
theorem C8_upload_filter (disk : List String) (mimetype generatedName : String)
    (h : mimetype ≠ "application/pdf") :
    uploadPipeline disk mimetype generatedName =
      (disk, Except.error "Only PDF files allowed") := by
  unfold uploadPipeline fileFilter
  simp [h]

/-- C8 witness: a "text/plain" upload is rejected and an empty upload
directory stays empty. -/
theorem C8_upload_filter_witness :
    uploadPipeline [] "text/plain" "1-ab.pdf" =
      ([], Except.error "Only PDF files allowed") :=
  C8_upload_filter [] "text/plain" "1-ab.pdf" (by decide)

/-- C10: with a non-empty API key configured and a non-matching (or
missing) x-api-key header, the /api/parse gate responds 401 and returns
the rate-limit Map unchanged: the rejected request consumes no quota,
because key validation runs before the rate-limit middleware. -/
theorem C10_apikey_before_ratelimit (m : RateMap) (requiredKey : String)
    (provided : Option String) (ip : String) (now : Nat)
    (hk : requiredKey ≠ "") (hp : provided ≠ some requiredKey) :
    parseGate m requiredKey provided ip now = (m, ParseGateResult.unauthorized) := by
  unfold parseGate validateApiKeyPasses
  simp [hk, hp]

/-- C10 witness: a wrong key against configured secret "secret" yields 401
and leaves the empty rate-limit Map untouched. -/
theorem C10_apikey_before_ratelimit_witness :
    parseGate (fun _ => none) "secret" (some "wrong") "1.2.3.4" 17 =
      ((fun _ => none : RateMap), ParseGateResult.unauthorized) :=
  C10_apikey_before_ratelimit (fun _ => none) "secret" (some "wrong") "1.2.3.4" 17
    (by decide) (by decide)

/-- Helper: `parseInt(...) || 1` never yields 0, since a parsed 0 is falsy
and is replaced by 1, as is NaN. -/
theorem jsOrOne_ne_zero (o : Option Int) : jsOrOne o ≠ 0 := by
  cases o with
  | none => simp [jsOrOne]
  | some n =>
    simp only [jsOrOne]
    split
    · decide
    · assumption

/-- Discriminator: is the /api/parse response a success with download URL? -/
def respIsOkDownload : ParseResp → Bool
  | ParseResp.okDownload _ => true
  | _ => false

/-- Helper: the computed exit code is never 0, because a missing exit file
defaults to 1 and `parseInt(...) || 1` replaces both NaN and 0 by 1. -/
theorem cliExitCode_ne_zero (f : CLIFiles) : cliExitCode f ≠ 0 := by
  unfold cliExitCode
  cases f.exitContent with
  | none => decide
  | some s => exact jsOrOne_ne_zero (jsParseInt (jsTrim s))

/-- C2: the claim says a captured exit status of zero resolves the call,
but `exitCode = parseInt(content) || 1` maps a parsed 0 (falsy) to 1, so
at the failing input (exit file holding "0", stdout "done", stderr empty)
the close handler rejects with "OpenClaw exited with code 1: done"; in
fact no captured file contents can ever make the computed exit code 0, so
`processWithCLI` never resolves successfully on close. -/
theorem C2_cli_zero_exit_rejected :
    cliOutcome ⟨some "done", some "", some "0\n"⟩ =
      Except.error "OpenClaw exited with code 1: done"
    ∧ ∀ f : CLIFiles, cliOutcome f = Except.error (cliFailText f) := by
  constructor
  · rfl
  · intro f
    unfold cliOutcome
    rw [if_neg (cliExitCode_ne_zero f)]

/-- C3: when the readiness flag is set the gateway strategy is attempted
first and any gateway rejection causes the CLI strategy to be attempted in
the same request; when the flag is unset the CLI strategy is invoked
directly and alone; and when both strategies reject, the 500 response
carries the CLI strategy's final error message. -/
theorem C3_dispatch_policy (ready : Bool) (gw cli : Except String String) :
    (ready = true → (dispatch ready gw cli).triedGateway = true)
    ∧ (ready = true → ∀ e, gw = Except.error e → (dispatch ready gw cli).triedCLI = true)
    ∧ (ready = false → dispatch ready gw cli = ⟨false, true, cli⟩)
    ∧ (∀ e₁ e₂ (csvExists : Bool) (baseName : String),
        gw = Except.error e₁ → cli = Except.error e₂ →
        parseEndpoint true ready gw cli csvExists baseName = ParseResp.failure 500 e₂) := by
  refine ⟨?_, ?_, ?_, ?_⟩
  · intro hr
    subst hr
    cases gw <;> simp [dispatch]
  · intro hr e hg
    subst hr; subst hg
    simp [dispatch]
  · intro hr
    subst hr
    simp [dispatch]
  · intro e₁ e₂ csvExists baseName hg hc
    subst hg; subst hc
    cases ready <;> simp [parseEndpoint, dispatch]

/-- C3 witness: with the flag set and both strategies rejecting ("gw boom"
then "cli boom"), the response is a 500 carrying the CLI error, even with
the output file present. -/
theorem C3_dispatch_policy_witness :
    parseEndpoint true true (Except.error "gw boom") (Except.error "cli boom") true "doc" =
      ParseResp.failure 500 "cli boom" :=
  (C3_dispatch_policy true (Except.error "gw boom") (Except.error "cli boom")).2.2.2
    "gw boom" "cli boom" true "doc" rfl rfl

/-- C4 counterexample: the claim as stated fails when both strategies
reject: with a file uploaded and the output CSV present on disk, the
handler still answers a 500 with the CLI error and no download URL,
because the existence check only runs after a resolved strategy result. -/
theorem C4_exists_wins_counterexample :
    parseEndpoint true false (Except.error "gateway down") (Except.error "cli failed")
        true "doc" = ParseResp.failure 500 "cli failed"
    ∧ respIsOkDownload (parseEndpoint true false (Except.error "gateway down")
        (Except.error "cli failed") true "doc") = false := by
  constructor <;> rfl

/-- C4 amended: whenever the dispatched backend call resolves (whatever
the resolved message text says, including text describing an error
condition) and the expected output CSV exists on disk, the endpoint
responds with success and the download URL: file existence wins over the
backend's textual response. -/
theorem C4_exists_wins_when_resolved (ready : Bool) (gw cli : Except String String)
    (baseName msg : String) (hres : (dispatch ready gw cli).result = Except.ok msg) :
    parseEndpoint true ready gw cli true baseName =
      ParseResp.okDownload ("/api/download/" ++ baseName ++ "_parsed.csv") := by
  unfold parseEndpoint
  rw [hres]
  simp

/-- C4 witness: the gateway resolves with a message that textually reports
an error, yet with the CSV present the endpoint answers the download URL. -/
theorem C4_exists_wins_when_resolved_witness :
    parseEndpoint true true (Except.ok "ERROR: extraction failed") (Except.error "x")
        true "doc" =
      ParseResp.okDownload ("/api/download/" ++ "doc" ++ "_parsed.csv") :=
  C4_exists_wins_when_resolved true (Except.ok "ERROR: extraction failed")
    (Except.error "x") "doc" "ERROR: extraction failed" rfl

/-- Helper: a message stream with no terminal tag leaves the flag unset
and the promise pending (content, raw frames and ignored tags neither set
`messageReceived` nor settle). -/
theorem runGw_no_terminal (msgs : List GwMsg) :
    ∀ st : GwState, (∀ m ∈ msgs, isTerminal m = false) →
    st.messageReceived = false → st.settled = none →
    (msgs.foldl stepMsg st).messageReceived = false
    ∧ (msgs.foldl stepMsg st).settled = none := by
  induction msgs with
  | nil => intro st _ hmr hset; exact ⟨hmr, hset⟩
  | cons m msgs ih =>
    intro st hterm hmr hset
    have hm : isTerminal m = false := hterm m (List.mem_cons_self m msgs)
    have hrest : ∀ x ∈ msgs, isTerminal x = false :=
      fun x hx => hterm x (List.mem_cons_of_mem m hx)
    cases m with
    | content s => exact ih _ hrest hmr hset
    | plain s => exact ih _ hrest hmr hset
    | other => exact ih _ hrest hmr hset
    | done => simp [isTerminal] at hm
    | errorMsg e => simp [isTerminal] at hm

/-- Helper: along any reachable run, a pending promise means no terminal
message was seen (`messageReceived` is set only together with a settle
attempt). -/
theorem runGw_pending_not_received (msgs : List GwMsg) :
    ∀ st : GwState, (st.settled = none → st.messageReceived = false) →
    (msgs.foldl stepMsg st).settled = none →
    (msgs.foldl stepMsg st).messageReceived = false := by
  induction msgs with
  | nil => intro st h hset; exact h hset
  | cons m msgs ih =>
    intro st h hset
    refine ih (stepMsg st m) ?_ hset
    intro hpend
    cases m with
    | content s => exact h hpend
    | plain s => exact h hpend
    | other => exact h hpend
    | done =>
      exfalso
      simp only [stepMsg, settle] at hpend
      cases hst : st.settled with
      | none => rw [hst] at hpend; simp at hpend
      | some r => rw [hst] at hpend; simp at hpend
    | errorMsg e =>
      exfalso
      simp only [stepMsg, settle] at hpend
      cases hst : st.settled with
      | none => rw [hst] at hpend; simp at hpend
      | some r => rw [hst] at hpend; simp at hpend

/-- C5: if the connection closes before any terminal (done/complete/end or
error) message, the call rejects with "WebSocket closed without response"
when the buffer is empty, but resolves with the accumulated partial
content when fragments had already accumulated. -/
theorem C5_close_partial_content (msgs : List GwMsg)
    (h : ∀ m ∈ msgs, isTerminal m = false) :
    ((runGw msgs).fullResponse = "" →
      (stepClose (runGw msgs)).settled =
        some (Except.error "WebSocket closed without response"))
    ∧ ((runGw msgs).fullResponse ≠ "" →
      (stepClose (runGw msgs)).settled = some (Except.ok (runGw msgs).fullResponse)) := by
  obtain ⟨hmr, hset⟩ := runGw_no_terminal msgs gwInit h rfl rfl
  constructor
  · intro hfr
    unfold runGw at hfr ⊢
    simp [stepClose, hmr, hfr, settle, hset]
  · intro hfr
    unfold runGw at hfr ⊢
    simp [stepClose, hmr, hfr, settle, hset]

/-- C5 witness: two content fragments and an ignored tag, then a close:
the call resolves with the concatenated partial content; and the empty
stream followed by a close rejects. -/
theorem C5_close_partial_content_witness :
    (stepClose (runGw [GwMsg.content "a,b", GwMsg.other, GwMsg.content ",c"])).settled =
      some (Except.ok "a,b,c")
    ∧ (stepClose (runGw [])).settled =
      some (Except.error "WebSocket closed without response") :=
  ⟨(C5_close_partial_content [GwMsg.content "a,b", GwMsg.other, GwMsg.content ",c"]
      (by decide)).2 (by decide),
   (C5_close_partial_content [] (by decide)).1 (by decide)⟩

/-- C6: when the five-minute timer fires with the call still pending (no
terminal outcome), the gateway strategy rejects with "Gateway timeout" and
closes the WebSocket; the CLI strategy's timer kills the subprocess and
rejects with its timeout message; both timers are set to 300000 ms. -/
theorem C6_timeout_bound (msgs : List GwMsg) (h : (runGw msgs).settled = none) :
    (gwTimeoutFire (runGw msgs)).1.settled = some (Except.error "Gateway timeout")
    ∧ (gwTimeoutFire (runGw msgs)).2 = true
    ∧ cliTimeoutFire =
        (true, Except.error "Timeout waiting for OpenClaw response (5 minutes)")
    ∧ GW_TIMEOUT_MS = 300000 := by
  have hmr : (runGw msgs).messageReceived = false :=
    runGw_pending_not_received msgs gwInit (fun _ => rfl) h
  refine ⟨?_, rfl, rfl, rfl⟩
  simp [gwTimeoutFire, hmr, settle, h]

/-- C6 witness: a stream of one content fragment leaves the call pending,
and the firing timer rejects it with "Gateway timeout" and closes the
socket. -/
theorem C6_timeout_bound_witness :
    (gwTimeoutFire (runGw [GwMsg.content "partial"])).1.settled =
      some (Except.error "Gateway timeout")
    ∧ (gwTimeoutFire (runGw [GwMsg.content "partial"])).2 = true
    ∧ cliTimeoutFire =
        (true, Except.error "Timeout waiting for OpenClaw response (5 minutes)")
    ∧ GW_TIMEOUT_MS = 300000 :=
  C6_timeout_bound [GwMsg.content "partial"] rfl

/-! ### Rate-limiter lemmas -/

/-- Helper: a call with an existing in-window record under capacity
accepts and increments that record. -/
theorem checkRateLimit_accept (m : RateMap) (ip : String) (now c R : Nat)
    (hm : m ip = some ⟨c, R⟩) (hnow : now ≤ R) (hc : c < RATE_LIMIT) :
    checkRateLimit m ip now =
      ((fun k => if k = ip then some ⟨c + 1, R⟩ else m k), true) := by
  have h1 : ¬ ((⟨c, R⟩ : RateRecord).resetAt < now) := by
    show ¬ (R < now); omega
  have h2 : ¬ (RATE_LIMIT ≤ (⟨c, R⟩ : RateRecord).count) := by
    show ¬ (RATE_LIMIT ≤ c); omega
  simp only [checkRateLimit, hm, Option.getD_some]
  rw [if_neg h1, if_neg h2]

/-- Helper: a first call from an identity with no record accepts and
creates a fresh window `{count: 1, resetAt: now + RATE_WINDOW}`. -/
theorem checkRateLimit_fresh (m : RateMap) (ip : String) (now : Nat)
    (hm : m ip = none) :
    checkRateLimit m ip now =
      ((fun k => if k = ip then some ⟨1, now + RATE_WINDOW⟩ else m k), true) := by
  have h1 : ¬ ((⟨0, now + RATE_WINDOW⟩ : RateRecord).resetAt < now) := by
    show ¬ (now + RATE_WINDOW < now); omega
  have h2 : ¬ (RATE_LIMIT ≤ (⟨0, now + RATE_WINDOW⟩ : RateRecord).count) := by
    show ¬ (RATE_LIMIT ≤ 0); decide
  simp only [checkRateLimit, hm, Option.getD_none]
  rw [if_neg h1, if_neg h2]

/-- Helper: a call at capacity inside the window rejects and leaves the
Map untouched (no increment). -/
theorem checkRateLimit_reject (m : RateMap) (ip : String) (now c R : Nat)
    (hm : m ip = some ⟨c, R⟩) (hnow : now ≤ R) (hc : RATE_LIMIT ≤ c) :
    checkRateLimit m ip now = (m, false) := by
  have h1 : ¬ ((⟨c, R⟩ : RateRecord).resetAt < now) := by
    show ¬ (R < now); omega
  have h2 : RATE_LIMIT ≤ (⟨c, R⟩ : RateRecord).count := hc
  simp only [checkRateLimit, hm, Option.getD_some]
  rw [if_neg h1, if_pos h2]

/-- Helper: a call after the window's reset time zeroes the counter, sets
a new reset time, accepts, and stores `{count: 1, resetAt: now + RATE_WINDOW}`. -/
theorem checkRateLimit_reset (m : RateMap) (ip : String) (now c R : Nat)
    (hm : m ip = some ⟨c, R⟩) (hnow : R < now) :
    checkRateLimit m ip now =
      ((fun k => if k = ip then some ⟨1, now + RATE_WINDOW⟩ else m k), true) := by
  have h1 : (⟨c, R⟩ : RateRecord).resetAt < now := hnow
  have h2 : ¬ (RATE_LIMIT ≤ (⟨0, now + RATE_WINDOW⟩ : RateRecord).count) := by
    show ¬ (RATE_LIMIT ≤ 0); decide
  simp only [checkRateLimit, hm, Option.getD_some]
  rw [if_pos h1, if_neg h2]

/-- Helper: running calls over an appended list composes the runs. -/
theorem runRateTimes_append (ip : String) (l₁ l₂ : List Nat) :
    ∀ m : RateMap, runRateTimes m ip (l₁ ++ l₂) =
      ((runRateTimes (runRateTimes m ip l₁).1 ip l₂).1,
       (runRateTimes m ip l₁).2 ++ (runRateTimes (runRateTimes m ip l₁).1 ip l₂).2) := by
  induction l₁ with
  | nil => intro m; simp [runRateTimes]
  | cons t l₁ ih => intro m; simp [runRateTimes, ih]

/-- Helper: from a record `{count: c, resetAt: R}`, a burst of calls all
at times within the window and fitting under capacity is fully accepted,
leaving `{count: c + burst length, resetAt: R}`. -/
theorem runRateTimes_fill (ip : String) (R : Nat) (ts : List Nat) :
    ∀ (m : RateMap) (c : Nat), m ip = some ⟨c, R⟩ → (∀ t ∈ ts, t ≤ R) →
    c + ts.length ≤ RATE_LIMIT →
    (runRateTimes m ip ts).1 ip = some ⟨c + ts.length, R⟩
    ∧ (runRateTimes m ip ts).2 = List.replicate ts.length true := by
  induction ts with
  | nil => intro m c hm _ _; simpa [runRateTimes] using hm
  | cons t ts ih =>
    intro m c hm hts hcap
    have hc : c < RATE_LIMIT := by
      simp only [List.length_cons] at hcap; omega
    have hstep := checkRateLimit_accept m ip t c R hm (hts t (List.mem_cons_self t ts)) hc
    have hm' : (fun k => if k = ip then some ⟨c + 1, R⟩ else m k) ip =
        some (⟨c + 1, R⟩ : RateRecord) := by simp
    have hts' : ∀ u ∈ ts, u ≤ R := fun u hu => hts u (List.mem_cons_of_mem t hu)
    have hcap' : (c + 1) + ts.length ≤ RATE_LIMIT := by
      simp only [List.length_cons] at hcap; omega
    obtain ⟨ih1, ih2⟩ :=
      ih (fun k => if k = ip then some ⟨c + 1, R⟩ else m k) (c + 1) hm' hts' hcap'
    have hrun : runRateTimes m ip (t :: ts) =
        ((runRateTimes (checkRateLimit m ip t).1 ip ts).1,
         (checkRateLimit m ip t).2 :: (runRateTimes (checkRateLimit m ip t).1 ip ts).2) :=
      rfl
    have hfst : (runRateTimes m ip (t :: ts)).1 =
        (runRateTimes (fun k => if k = ip then some ⟨c + 1, R⟩ else m k) ip ts).1 := by
      rw [hrun, hstep]
    have hsnd : (runRateTimes m ip (t :: ts)).2 =
        true :: (runRateTimes (fun k => if k = ip then some ⟨c + 1, R⟩ else m k) ip ts).2 := by
      rw [hrun, hstep]
    constructor
    · rw [hfst, ih1]
      have h1 : c + 1 + ts.length = c + (t :: ts).length := by
        simp only [List.length_cons]; omega
      rw [h1]
    · rw [hsnd, ih2, List.length_cons, List.replicate_succ]

/-- C1: for any identity, 101 calls whose times all lie within the window
opened by the first call see the first 100 allowed and the 101st rejected
with the counter left at 100 (not incremented); a subsequent call after
the reset time has passed zeroes the counter (storing count 1 for itself),
sets a new reset time, and is allowed. -/
theorem C1_rate_limiter_window (ip : String) (t0 : Nat) (ts : List Nat)
    (tlast tnext : Nat)
    (hlen : ts.length = 99)
    (hts : ∀ t ∈ ts, t ≤ t0 + RATE_WINDOW)
    (hlast : tlast ≤ t0 + RATE_WINDOW)
    (hnext : t0 + RATE_WINDOW < tnext) :
    (runRateTimes (fun _ => none) ip ((t0 :: ts) ++ [tlast])).2 =
      List.replicate 100 true ++ [false]
    ∧ (runRateTimes (fun _ => none) ip ((t0 :: ts) ++ [tlast])).1 ip =
      some ⟨100, t0 + RATE_WINDOW⟩
    ∧ (checkRateLimit (runRateTimes (fun _ => none) ip ((t0 :: ts) ++ [tlast])).1 ip tnext).2 =
      true
    ∧ (checkRateLimit (runRateTimes (fun _ => none) ip ((t0 :: ts) ++ [tlast])).1 ip tnext).1 ip =
      some ⟨1, tnext + RATE_WINDOW⟩ := by
  have hstep0 := checkRateLimit_fresh (fun _ => none) ip t0 rfl
  have hm1 : (fun k => if k = ip then some ⟨1, t0 + RATE_WINDOW⟩
      else (fun _ => none : RateMap) k) ip = some (⟨1, t0 + RATE_WINDOW⟩ : RateRecord) := by
    simp
  have hcap : 1 + ts.length ≤ RATE_LIMIT := by rw [hlen]; decide
  obtain ⟨hmid, hbools⟩ := runRateTimes_fill ip (t0 + RATE_WINDOW) ts
    (fun k => if k = ip then some ⟨1, t0 + RATE_WINDOW⟩ else (fun _ => none : RateMap) k)
    1 hm1 hts hcap
  have hmid' : (runRateTimes (fun k => if k = ip then some ⟨1, t0 + RATE_WINDOW⟩
      else (fun _ => none : RateMap) k) ip ts).1 ip =
      some (⟨100, t0 + RATE_WINDOW⟩ : RateRecord) := by
    rw [hmid, hlen]
  have hrej := checkRateLimit_reject
    (runRateTimes (fun k => if k = ip then some ⟨1, t0 + RATE_WINDOW⟩
      else (fun _ => none : RateMap) k) ip ts).1
    ip tlast 100 (t0 + RATE_WINDOW) hmid' hlast (by decide)
  have hhead : runRateTimes (fun _ => none : RateMap) ip ((t0 :: ts) ++ [tlast]) =
      ((runRateTimes (checkRateLimit (fun _ => none : RateMap) ip t0).1 ip (ts ++ [tlast])).1,
       (checkRateLimit (fun _ => none : RateMap) ip t0).2 ::
         (runRateTimes (checkRateLimit (fun _ => none : RateMap) ip t0).1 ip (ts ++ [tlast])).2) :=
    rfl
  have htail := runRateTimes_append ip ts [tlast]
    (fun k => if k = ip then some ⟨1, t0 + RATE_WINDOW⟩ else (fun _ => none : RateMap) k)
  have hone : runRateTimes (runRateTimes (fun k => if k = ip then
      some ⟨1, t0 + RATE_WINDOW⟩ else (fun _ => none : RateMap) k) ip ts).1 ip [tlast] =
      ((runRateTimes (fun k => if k = ip then some ⟨1, t0 + RATE_WINDOW⟩
          else (fun _ => none : RateMap) k) ip ts).1, [false]) := by
    show ((checkRateLimit _ ip tlast).1, [(checkRateLimit _ ip tlast).2]) = _
    rw [hrej]
  have e1 : runRateTimes (fun _ => none : RateMap) ip ((t0 :: ts) ++ [tlast]) =
      ((runRateTimes (fun k => if k = ip then some ⟨1, t0 + RATE_WINDOW⟩
          else (fun _ => none : RateMap) k) ip (ts ++ [tlast])).1,
       true :: (runRateTimes (fun k => if k = ip then some ⟨1, t0 + RATE_WINDOW⟩
          else (fun _ => none : RateMap) k) ip (ts ++ [tlast])).2) := by
    rw [hhead, hstep0]
  have e2 : runRateTimes (fun k => if k = ip then some ⟨1, t0 + RATE_WINDOW⟩
      else (fun _ => none : RateMap) k) ip (ts ++ [tlast]) =
      ((runRateTimes (fun k => if k = ip then some ⟨1, t0 + RATE_WINDOW⟩
          else (fun _ => none : RateMap) k) ip ts).1,
       List.replicate 99 true ++ [false]) := by
    rw [htail, hone, hbools, hlen]
  have hfin : (runRateTimes (fun _ => none : RateMap) ip ((t0 :: ts) ++ [tlast])).1 =
      (runRateTimes (fun k => if k = ip then some ⟨1, t0 + RATE_WINDOW⟩
          else (fun _ => none : RateMap) k) ip ts).1 := by
    rw [e1, e2]
  have hsnd : (runRateTimes (fun _ => none : RateMap) ip ((t0 :: ts) ++ [tlast])).2 =
      true :: (List.replicate 99 true ++ [false]) := by
    rw [e1, e2]
  refine ⟨?_, ?_, ?_, ?_⟩
  · rw [hsnd]
    decide
  · rw [hfin]
    exact hmid'
  · rw [hfin,
      checkRateLimit_reset _ ip tnext 100 (t0 + RATE_WINDOW) hmid' hnext]
  · rw [hfin,
      checkRateLimit_reset _ ip tnext 100 (t0 + RATE_WINDOW) hmid' hnext]
    simp

/-- C1 witness: identity "client", 101 calls at time 0, then one call just
past the hour window: outputs 100 accepts then a reject with the counter
held at 100, and the later call resets to count 1 with the new reset time. -/
theorem C1_rate_limiter_window_witness :
    (runRateTimes (fun _ => none) "client" ((0 :: List.replicate 99 0) ++ [0])).2 =
      List.replicate 100 true ++ [false]
    ∧ (runRateTimes (fun _ => none) "client" ((0 :: List.replicate 99 0) ++ [0])).1 "client" =
      some ⟨100, 0 + RATE_WINDOW⟩
    ∧ (checkRateLimit (runRateTimes (fun _ => none) "client"
        ((0 :: List.replicate 99 0) ++ [0])).1 "client" 3600001).2 = true
    ∧ (checkRateLimit (runRateTimes (fun _ => none) "client"
        ((0 :: List.replicate 99 0) ++ [0])).1 "client" 3600001).1 "client" =
      some ⟨1, 3600001 + RATE_WINDOW⟩ :=
  C1_rate_limiter_window "client" 0 (List.replicate 99 0) 0 3600001
    (by decide)
    (fun t ht => by rw [List.eq_of_mem_replicate ht]; omega)
    (by omega)
    (by decide)

/-- The Map-level invariant of C9: every stored record respects the
capacity ceiling. -/
def rateInv (m : RateMap) : Prop :=
  ∀ ip rec, m ip = some rec → rec.count ≤ RATE_LIMIT

/-- Helper: one `checkRateLimit` call preserves the capacity invariant:
a rejection leaves the Map unchanged, and an acceptance only stores a
count that was strictly under the ceiling before incrementing. -/
theorem checkRateLimit_preserves (m : RateMap) (ip : String) (now : Nat)
    (hm : rateInv m) : rateInv (checkRateLimit m ip now).1 := by
  cases hmi : m ip with
  | none =>
    rw [checkRateLimit_fresh m ip now hmi]
    intro k rec hk
    have hk' : (if k = ip then some (⟨1, now + RATE_WINDOW⟩ : RateRecord) else m k) =
        some rec := hk
    by_cases hki : k = ip
    · rw [if_pos hki] at hk'
      injection hk' with h
      subst h
      show 1 ≤ RATE_LIMIT
      decide
    · rw [if_neg hki] at hk'
      exact hm k rec hk'
  | some r =>
    rcases r with ⟨c, R⟩
    rcases Nat.lt_or_ge R now with hR | hR
    · rw [checkRateLimit_reset m ip now c R hmi hR]
      intro k rec hk
      have hk' : (if k = ip then some (⟨1, now + RATE_WINDOW⟩ : RateRecord) else m k) =
          some rec := hk
      by_cases hki : k = ip
      · rw [if_pos hki] at hk'
        injection hk' with h
        subst h
        show 1 ≤ RATE_LIMIT
        decide
      · rw [if_neg hki] at hk'
        exact hm k rec hk'
    · rcases Nat.lt_or_ge c RATE_LIMIT with hc | hc
      · rw [checkRateLimit_accept m ip now c R hmi hR hc]
        intro k rec hk
        have hk' : (if k = ip then some (⟨c + 1, R⟩ : RateRecord) else m k) =
            some rec := hk
        by_cases hki : k = ip
        · rw [if_pos hki] at hk'
          injection hk' with h
          subst h
          show c + 1 ≤ RATE_LIMIT
          omega
        · rw [if_neg hki] at hk'
          exact hm k rec hk'
      · rw [checkRateLimit_reject m ip now c R hmi hR hc]
        exact hm

/-- Helper: the invariant is preserved along any call sequence. -/
theorem runRate_preserves (calls : List (String × Nat)) :
    ∀ m : RateMap, rateInv m → rateInv (runRate m calls) := by
  induction calls with
  | nil => intro m hm; exact hm
  | cons c calls ih =>
    intro m hm
    exact ih _ (checkRateLimit_preserves m c.1 c.2 hm)

/-- C9: after any sequence of `checkRateLimit` calls starting from the
empty Map, every stored record satisfies `count ≤ 100`: a window's counter
never exceeds the ceiling before being reset by window expiry. -/
theorem C9_counter_never_exceeds (calls : List (String × Nat)) (ip : String)
    (rec : RateRecord) (h : runRate (fun _ => none) calls ip = some rec) :
    rec.count ≤ RATE_LIMIT :=
  runRate_preserves calls (fun _ => none) (fun _ _ hk => by simp at hk) ip rec h

/-- C9 witness: one call from "a" at time 0 stores the record
`{count: 1, resetAt: 3600000}`, which respects the ceiling. -/
theorem C9_counter_never_exceeds_witness :
    runRate (fun _ => none) [("a", 0)] "a" = some ⟨1, 3600000⟩
    ∧ (⟨1, 3600000⟩ : RateRecord).count ≤ RATE_LIMIT :=
  ⟨by decide, C9_counter_never_exceeds [("a", 0)] "a" ⟨1, 3600000⟩ (by decide)⟩

end EogParser
